import Mathlib

/-!
Verification of the pyFFTW builders layer (`pyfftw/builders/builders.py`)
against its design specification.

The builder functions themselves are embedded directly from
`src/pyfftw/builders/builders.py`.  The collaborating primitives
(`pyfftw.builders._utils._Xfftn`, `_precook_1d_args`, the `FFTW`
execution class) are not part of the sources; where a claim depends on
them they are modelled from the specification (each such definition
carries a doc comment starting `Modelled from the spec:`), or, for the
`update_arrays` contract, from the in-tree test
`test_pyfftw_class_misc.py` which pins the expected behaviour.
-/

namespace PyFFTW

/-- Description of a numpy-like array as far as the builders layer
inspects it: shape, element type (complexity and whether the precision
is one of the supported float precisions), contiguity, base address and
strides in bytes. -/
structure ArrayDesc where
  shape : List Nat
  complexDtype : Bool
  supportedPrecision : Bool
  contiguous : Bool
  addr : Nat
  strides : List Nat
deriving Repr, DecidableEq

/-- The argument record each builder function passes to
`_utils._Xfftn` (embedded from `builders.py`: every builder ends in
`return _Xfftn(a, s, axes, overwrite_input, planner_effort, threads,
auto_align_input, auto_contiguous, avoid_copy, inverse, real)`). -/
structure XfftnCall where
  a : ArrayDesc
  s : Option (List Nat)
  axes : Option (List Int)
  overwrite_input : Bool
  planner_effort : String
  threads : Nat
  auto_align_input : Bool
  auto_contiguous : Bool
  avoid_copy : Bool
  inverse : Bool
  real : Bool
deriving Repr, DecidableEq

/-- Modelled from the spec: `_utils._precook_1d_args` is not under the
sources.  Per §4.1, a 1-D entry point turns its `n`/`axis` arguments
into the shape/axes pair: `s = [n]` when a length hint is given
(otherwise no shape hint), and `axes = [axis]`. -/
def _precook_1d_args (n : Option Nat) (axis : Int) :
    Option (List Nat) × Option (List Int) :=
  (n.map (fun m => [m]), some [axis])

/-- Embedded from `builders.fft`. -/
def fft (a : ArrayDesc) (n : Option Nat) (axis : Int)
    (overwrite_input : Bool) (planner_effort : String) (threads : Nat)
    (auto_align_input : Bool) (auto_contiguous : Bool)
    (avoid_copy : Bool) : XfftnCall :=
  let p := _precook_1d_args n axis
  { a := a, s := p.1, axes := p.2, overwrite_input := overwrite_input,
    planner_effort := planner_effort, threads := threads,
    auto_align_input := auto_align_input, auto_contiguous := auto_contiguous,
    avoid_copy := avoid_copy, inverse := false, real := false }

/-- Embedded from `builders.ifft`. -/
def ifft (a : ArrayDesc) (n : Option Nat) (axis : Int)
    (overwrite_input : Bool) (planner_effort : String) (threads : Nat)
    (auto_align_input : Bool) (auto_contiguous : Bool)
    (avoid_copy : Bool) : XfftnCall :=
  let p := _precook_1d_args n axis
  { a := a, s := p.1, axes := p.2, overwrite_input := overwrite_input,
    planner_effort := planner_effort, threads := threads,
    auto_align_input := auto_align_input, auto_contiguous := auto_contiguous,
    avoid_copy := avoid_copy, inverse := true, real := false }

/-- Embedded from `builders.fft2`. -/
def fft2 (a : ArrayDesc) (s : Option (List Nat)) (axes : Option (List Int))
    (overwrite_input : Bool) (planner_effort : String) (threads : Nat)
    (auto_align_input : Bool) (auto_contiguous : Bool)
    (avoid_copy : Bool) : XfftnCall :=
  { a := a, s := s, axes := axes, overwrite_input := overwrite_input,
    planner_effort := planner_effort, threads := threads,
    auto_align_input := auto_align_input, auto_contiguous := auto_contiguous,
    avoid_copy := avoid_copy, inverse := false, real := false }

/-- Embedded from `builders.ifft2`. -/
def ifft2 (a : ArrayDesc) (s : Option (List Nat)) (axes : Option (List Int))
    (overwrite_input : Bool) (planner_effort : String) (threads : Nat)
    (auto_align_input : Bool) (auto_contiguous : Bool)
    (avoid_copy : Bool) : XfftnCall :=
  { a := a, s := s, axes := axes, overwrite_input := overwrite_input,
    planner_effort := planner_effort, threads := threads,
    auto_align_input := auto_align_input, auto_contiguous := auto_contiguous,
    avoid_copy := avoid_copy, inverse := true, real := false }

/-- Embedded from `builders.fftn`. -/
def fftn (a : ArrayDesc) (s : Option (List Nat)) (axes : Option (List Int))
    (overwrite_input : Bool) (planner_effort : String) (threads : Nat)
    (auto_align_input : Bool) (auto_contiguous : Bool)
    (avoid_copy : Bool) : XfftnCall :=
  { a := a, s := s, axes := axes, overwrite_input := overwrite_input,
    planner_effort := planner_effort, threads := threads,
    auto_align_input := auto_align_input, auto_contiguous := auto_contiguous,
    avoid_copy := avoid_copy, inverse := false, real := false }

/-- Embedded from `builders.ifftn`. -/
def ifftn (a : ArrayDesc) (s : Option (List Nat)) (axes : Option (List Int))
    (overwrite_input : Bool) (planner_effort : String) (threads : Nat)
    (auto_align_input : Bool) (auto_contiguous : Bool)
    (avoid_copy : Bool) : XfftnCall :=
  { a := a, s := s, axes := axes, overwrite_input := overwrite_input,
    planner_effort := planner_effort, threads := threads,
    auto_align_input := auto_align_input, auto_contiguous := auto_contiguous,
    avoid_copy := avoid_copy, inverse := true, real := false }

/-- Embedded from `builders.rfft`. -/
def rfft (a : ArrayDesc) (n : Option Nat) (axis : Int)
    (overwrite_input : Bool) (planner_effort : String) (threads : Nat)
    (auto_align_input : Bool) (auto_contiguous : Bool)
    (avoid_copy : Bool) : XfftnCall :=
  let p := _precook_1d_args n axis
  { a := a, s := p.1, axes := p.2, overwrite_input := overwrite_input,
    planner_effort := planner_effort, threads := threads,
    auto_align_input := auto_align_input, auto_contiguous := auto_contiguous,
    avoid_copy := avoid_copy, inverse := false, real := true }

/-- Embedded from `builders.irfft`. -/
def irfft (a : ArrayDesc) (n : Option Nat) (axis : Int)
    (overwrite_input : Bool) (planner_effort : String) (threads : Nat)
    (auto_align_input : Bool) (auto_contiguous : Bool)
    (avoid_copy : Bool) : XfftnCall :=
  let p := _precook_1d_args n axis
  { a := a, s := p.1, axes := p.2, overwrite_input := overwrite_input,
    planner_effort := planner_effort, threads := threads,
    auto_align_input := auto_align_input, auto_contiguous := auto_contiguous,
    avoid_copy := avoid_copy, inverse := true, real := true }

/-- Embedded from `builders.rfft2`. -/
def rfft2 (a : ArrayDesc) (s : Option (List Nat)) (axes : Option (List Int))
    (overwrite_input : Bool) (planner_effort : String) (threads : Nat)
    (auto_align_input : Bool) (auto_contiguous : Bool)
    (avoid_copy : Bool) : XfftnCall :=
  { a := a, s := s, axes := axes, overwrite_input := overwrite_input,
    planner_effort := planner_effort, threads := threads,
    auto_align_input := auto_align_input, auto_contiguous := auto_contiguous,
    avoid_copy := avoid_copy, inverse := false, real := true }

/-- Embedded from `builders.irfft2`.  Note: the Python signature has no
`overwrite_input` parameter; the body sets `overwrite_input = True`
unconditionally before calling `_Xfftn`. -/
def irfft2 (a : ArrayDesc) (s : Option (List Nat)) (axes : Option (List Int))
    (planner_effort : String) (threads : Nat)
    (auto_align_input : Bool) (auto_contiguous : Bool)
    (avoid_copy : Bool) : XfftnCall :=
  let overwrite_input := true
  { a := a, s := s, axes := axes, overwrite_input := overwrite_input,
    planner_effort := planner_effort, threads := threads,
    auto_align_input := auto_align_input, auto_contiguous := auto_contiguous,
    avoid_copy := avoid_copy, inverse := true, real := true }

/-- Embedded from `builders.rfftn`. -/
def rfftn (a : ArrayDesc) (s : Option (List Nat)) (axes : Option (List Int))
    (overwrite_input : Bool) (planner_effort : String) (threads : Nat)
    (auto_align_input : Bool) (auto_contiguous : Bool)
    (avoid_copy : Bool) : XfftnCall :=
  { a := a, s := s, axes := axes, overwrite_input := overwrite_input,
    planner_effort := planner_effort, threads := threads,
    auto_align_input := auto_align_input, auto_contiguous := auto_contiguous,
    avoid_copy := avoid_copy, inverse := false, real := true }

/-- Embedded from `builders.irfftn`.  Note: the Python signature has no
`overwrite_input` parameter; the body sets `overwrite_input = True`
unconditionally before calling `_Xfftn`. -/
def irfftn (a : ArrayDesc) (s : Option (List Nat)) (axes : Option (List Int))
    (planner_effort : String) (threads : Nat)
    (auto_align_input : Bool) (auto_contiguous : Bool)
    (avoid_copy : Bool) : XfftnCall :=
  let overwrite_input := true
  { a := a, s := s, axes := axes, overwrite_input := overwrite_input,
    planner_effort := planner_effort, threads := threads,
    auto_align_input := auto_align_input, auto_contiguous := auto_contiguous,
    avoid_copy := avoid_copy, inverse := true, real := true }

/-! Keyword-argument surface of the builder functions, read off the
`def` lines of `builders.py`.  Python raises `TypeError` when a call
passes a keyword argument that is not a parameter of the function. -/

/-- Parameter names of `builders.fft` (also `ifft`, `rfft`, `irfft`,
whose signatures are identical). -/
def fft_params : List String :=
  ["a", "n", "axis", "overwrite_input", "planner_effort", "threads",
   "auto_align_input", "auto_contiguous", "avoid_copy"]

/-- Parameter names of `builders.fft2` (also `ifft2`, `fftn`, `ifftn`,
`rfft2`, `rfftn`, whose signatures are identical). -/
def fftn_params : List String :=
  ["a", "s", "axes", "overwrite_input", "planner_effort", "threads",
   "auto_align_input", "auto_contiguous", "avoid_copy"]

/-- Parameter names of `builders.irfft2` (also `irfftn`): no
`overwrite_input`. -/
def irfftn_params : List String :=
  ["a", "s", "axes", "planner_effort", "threads",
   "auto_align_input", "auto_contiguous", "avoid_copy"]

/-- Python call semantics for keyword arguments: a call supplying a
keyword that is not among the function's parameters fails with
`TypeError`; otherwise the keywords are accepted. -/
inductive PyCallError where
  | typeError
deriving Repr, DecidableEq

/-- Accept or reject a list of keyword-argument names against a
function's parameter list, as the Python runtime does. -/
def check_kwargs (params kwargs : List String) : Except PyCallError Unit :=
  if kwargs.all (fun k => params.contains k) then Except.ok ()
  else Except.error PyCallError.typeError

/-! Alignment negotiation (spec §4.3).  The detecting code lives in the
`FFTW` execution class, which is not among the sources. -/

/-- An array satisfies an alignment `al` when its base address and all
of its strides lie on the `al`-byte boundary. -/
def satisfies_alignment (al addr : Nat) (strides : List Nat) : Bool :=
  addr % al == 0 && strides.all (fun st => st % al == 0)

/-- Modelled from the spec: the `FFTW` primitive's alignment detection
is not under the sources.  Per §4.3, an array's native alignment is the
largest supported alignment (the supported list is given in descending
order) whose byte boundary the array's base address and strides
satisfy; when none is satisfied the array is "unaligned", here
alignment class 1. -/
def native_alignment (supported : List Nat) (addr : Nat)
    (strides : List Nat) : Nat :=
  match supported.find? (fun al => satisfies_alignment al addr strides) with
  | some al => al
  | none => 1

/-- The platform maximum alignment: the head of the descending list of
supported alignments (1 when the platform supports none). -/
def platform_max (supported : List Nat) : Nat := supported.headD 1

/-- Modelled from the spec: §4.3 — the negotiated alignment is
`min(input_native, output_native, platform_maximum)`. -/
def negotiated_alignment (supported : List Nat) (inAddr : Nat)
    (inStrides : List Nat) (outAddr : Nat) (outStrides : List Nat) : Nat :=
  min (min (native_alignment supported inAddr inStrides)
        (native_alignment supported outAddr outStrides))
    (platform_max supported)

theorem satisfies_alignment_one (addr : Nat) (strides : List Nat) :
    satisfies_alignment 1 addr strides = true := by
  simp [satisfies_alignment, Nat.mod_one]

theorem native_alignment_satisfies (supported : List Nat) (addr : Nat)
    (strides : List Nat) :
    satisfies_alignment (native_alignment supported addr strides) addr
      strides = true := by
  unfold native_alignment
  cases h : supported.find? (fun al => satisfies_alignment al addr strides) with
  | none => exact satisfies_alignment_one addr strides
  | some al =>
    have hp := List.find?_some h
    exact show satisfies_alignment al addr strides = true from hp

theorem native_alignment_mem_or_one (supported : List Nat) (addr : Nat)
    (strides : List Nat) :
    native_alignment supported addr strides ∈ supported ∨
      native_alignment supported addr strides = 1 := by
  unfold native_alignment
  cases h : supported.find? (fun al => satisfies_alignment al addr strides) with
  | none => exact Or.inr rfl
  | some al => exact Or.inl (show al ∈ supported from List.mem_of_find?_eq_some h)

theorem platform_max_mem_or_one (supported : List Nat) :
    platform_max supported ∈ supported ∨ platform_max supported = 1 := by
  cases supported with
  | nil => exact Or.inr rfl
  | cons x xs => exact Or.inl (List.mem_cons_self x xs)

theorem satisfies_alignment_of_dvd (d al addr : Nat) (strides : List Nat)
    (hd : d ∣ al) (h : satisfies_alignment al addr strides = true) :
    satisfies_alignment d addr strides = true := by
  simp only [satisfies_alignment, Bool.and_eq_true, beq_iff_eq,
    List.all_eq_true] at h ⊢
  constructor
  · exact Nat.mod_eq_zero_of_dvd (hd.trans (Nat.dvd_of_mod_eq_zero h.1))
  · intro st hst
    exact Nat.mod_eq_zero_of_dvd
      (hd.trans (Nat.dvd_of_mod_eq_zero (h.2 st hst)))

/-- On a platform whose supported alignments are pairwise comparable by
divisibility in the direction of `≤` (as the powers of two used by SIMD
are), any member of `supported ∪ {1}` divides any `≤`-larger member. -/
theorem chain_dvd (supported : List Nat) (hpos : ∀ x ∈ supported, 0 < x)
    (hchain : ∀ x ∈ supported, ∀ y ∈ supported, x ≤ y → x ∣ y)
    (x y : Nat) (hx : x ∈ supported ∨ x = 1) (hy : y ∈ supported ∨ y = 1)
    (hxy : x ≤ y) : x ∣ y := by
  rcases hx with hx | rfl
  · rcases hy with hy | rfl
    · exact hchain x hx y hy hxy
    · have h1 := hpos x hx
      have : x = 1 := by omega
      subst this
      exact Nat.dvd_refl 1
  · exact Nat.one_dvd y

/-- C1: for every pair of input and output arrays, the alignment the
built transform is planned for equals the minimum of the input array's
native alignment, the output array's native alignment and the platform
maximum alignment; it never exceeds what either array actually
satisfies — indeed (for a platform whose supported alignments form the
usual divisibility chain) both arrays genuinely satisfy the negotiated
byte boundary. -/
theorem C1_negotiated_alignment (supported : List Nat) (inAddr outAddr : Nat)
    (inStrides outStrides : List Nat)
    (hpos : ∀ x ∈ supported, 0 < x)
    (hchain : ∀ x ∈ supported, ∀ y ∈ supported, x ≤ y → x ∣ y) :
    negotiated_alignment supported inAddr inStrides outAddr outStrides =
      min (min (native_alignment supported inAddr inStrides)
            (native_alignment supported outAddr outStrides))
        (platform_max supported) ∧
    negotiated_alignment supported inAddr inStrides outAddr outStrides ≤
      native_alignment supported inAddr inStrides ∧
    negotiated_alignment supported inAddr inStrides outAddr outStrides ≤
      native_alignment supported outAddr outStrides ∧
    satisfies_alignment
      (negotiated_alignment supported inAddr inStrides outAddr outStrides)
      inAddr inStrides = true ∧
    satisfies_alignment
      (negotiated_alignment supported inAddr inStrides outAddr outStrides)
      outAddr outStrides = true := by
  have hnegmem :
      negotiated_alignment supported inAddr inStrides outAddr outStrides ∈
        supported ∨
      negotiated_alignment supported inAddr inStrides outAddr outStrides = 1 := by
    unfold negotiated_alignment
    rcases min_choice
        (min (native_alignment supported inAddr inStrides)
          (native_alignment supported outAddr outStrides))
        (platform_max supported) with h | h
    · rw [h]
      rcases min_choice (native_alignment supported inAddr inStrides)
          (native_alignment supported outAddr outStrides) with h2 | h2
      · rw [h2]; exact native_alignment_mem_or_one supported inAddr inStrides
      · rw [h2]; exact native_alignment_mem_or_one supported outAddr outStrides
    · rw [h]; exact platform_max_mem_or_one supported
  have hle_in :
      negotiated_alignment supported inAddr inStrides outAddr outStrides ≤
        native_alignment supported inAddr inStrides :=
    le_trans (min_le_left _ _) (min_le_left _ _)
  have hle_out :
      negotiated_alignment supported inAddr inStrides outAddr outStrides ≤
        native_alignment supported outAddr outStrides :=
    le_trans (min_le_left _ _) (min_le_right _ _)
  have hdin :
      negotiated_alignment supported inAddr inStrides outAddr outStrides ∣
        native_alignment supported inAddr inStrides :=
    chain_dvd supported hpos hchain _ _ hnegmem
      (native_alignment_mem_or_one supported inAddr inStrides) hle_in
  have hdout :
      negotiated_alignment supported inAddr inStrides outAddr outStrides ∣
        native_alignment supported outAddr outStrides :=
    chain_dvd supported hpos hchain _ _ hnegmem
      (native_alignment_mem_or_one supported outAddr outStrides) hle_out
  refine ⟨rfl, hle_in, hle_out, ?_, ?_⟩
  · exact satisfies_alignment_of_dvd _ _ inAddr inStrides hdin
      (native_alignment_satisfies supported inAddr inStrides)
  · exact satisfies_alignment_of_dvd _ _ outAddr outStrides hdout
      (native_alignment_satisfies supported outAddr outStrides)

/-- Witness for C1: a platform supporting 32/16/8/4/2-byte alignments,
a 16-byte-aligned input (address 48, stride 16 bytes) and an
8-byte-aligned output (address 64, stride 8 bytes); the negotiated
alignment is 8 and both arrays satisfy it. -/
theorem C1_negotiated_alignment_witness :
    negotiated_alignment [32, 16, 8, 4, 2] 48 [16] 64 [8] =
      min (min (native_alignment [32, 16, 8, 4, 2] 48 [16])
            (native_alignment [32, 16, 8, 4, 2] 64 [8]))
        (platform_max [32, 16, 8, 4, 2]) ∧
    negotiated_alignment [32, 16, 8, 4, 2] 48 [16] 64 [8] ≤
      native_alignment [32, 16, 8, 4, 2] 48 [16] ∧
    negotiated_alignment [32, 16, 8, 4, 2] 48 [16] 64 [8] ≤
      native_alignment [32, 16, 8, 4, 2] 64 [8] ∧
    satisfies_alignment (negotiated_alignment [32, 16, 8, 4, 2] 48 [16] 64 [8])
      48 [16] = true ∧
    satisfies_alignment (negotiated_alignment [32, 16, 8, 4, 2] 48 [16] 64 [8])
      64 [8] = true :=
  C1_negotiated_alignment [32, 16, 8, 4, 2] 48 64 [16] [8]
    (by decide) (by decide)

/-- C2: every call to the 2-D or n-D inverse real builder (`irfft2`,
`irfftn`) passes `overwrite_input = true` on to `_Xfftn`,
unconditionally and whatever the caller supplied for the remaining
arguments; the signatures give the caller no way to change it. -/
theorem C2_inverse_real_forces_overwrite
    (a a2 : ArrayDesc) (s s2 : Option (List Nat))
    (axes axes2 : Option (List Int)) (pe pe2 : String) (th th2 : Nat)
    (aa aa2 ac ac2 ak ak2 : Bool) :
    (irfft2 a s axes pe th aa ac ak).overwrite_input = true ∧
    (irfftn a2 s2 axes2 pe2 th2 aa2 ac2 ak2).overwrite_input = true :=
  ⟨rfl, rfl⟩

/-- C10: `irfft2` and `irfftn` expose no `overwrite_input` parameter
(every other builder does), so any call passing `overwrite_input` as a
keyword argument to them fails with `TypeError` instead of being
accepted or silently ignored. -/
theorem C10_no_overwrite_input_keyword (kwargs : List String)
    (h : "overwrite_input" ∈ kwargs) :
    check_kwargs irfftn_params kwargs =
      Except.error PyCallError.typeError ∧
    "overwrite_input" ∉ irfftn_params ∧
    "overwrite_input" ∈ fft_params ∧
    "overwrite_input" ∈ fftn_params := by
  refine ⟨?_, by decide, by decide, by decide⟩
  have hne : ¬(kwargs.all (fun k => irfftn_params.contains k) = true) := by
    intro hall
    have h2 := List.all_eq_true.mp hall _ h
    exact absurd h2 (by decide)
  unfold check_kwargs
  rw [if_neg hne]

/-- Witness for C10: the concrete call `irfft2(a, overwrite_input=...)`
is a `TypeError`. -/
theorem C10_no_overwrite_input_keyword_witness :
    "overwrite_input" ∈ ["overwrite_input"] ∧
    check_kwargs irfftn_params ["overwrite_input"] =
      Except.error PyCallError.typeError :=
  ⟨by decide,
    (C10_no_overwrite_input_keyword ["overwrite_input"] (by decide)).1⟩

/-! Flag construction for the built transform (spec §4.5).  The code
assembling the flag list lives in `_utils._Xfftn`, which is not among
the sources. -/

/-- The four planner-effort flags, in order of increasing planning
effort; the default, `FFTW_MEASURE`, is the second-lowest
(`builders.py` docstring). -/
def planner_efforts : List String :=
  ["FFTW_ESTIMATE", "FFTW_MEASURE", "FFTW_PATIENT", "FFTW_EXHAUSTIVE"]

/-- Modelled from the spec: §4.5 — a transform kind supports the
destroy-input flag unless it is a multi-dimensional inverse real
transform, which never supports it (a fixed restriction of the
underlying algorithm, not a caller request). -/
def supports_destroy_input (real inverse : Bool) (naxes : Nat) : Bool :=
  !(real && inverse && decide (1 < naxes))

/-- Modelled from the spec: §4.5 — the flag list the builder hands to
the execution primitive: the planner-effort flag, `FFTW_DESTROY_INPUT`
iff `overwrite_input` is set and the transform kind supports it, and
`FFTW_UNALIGNED` iff the negotiated alignment is below the platform
maximum.  The function is total: misalignment only adds a flag, it is
never an error. -/
def plan_flags (planner_effort : String) (overwrite_input real inverse : Bool)
    (naxes : Nat) (negotiated platformMax : Nat) : List String :=
  [planner_effort] ++
    (if overwrite_input && supports_destroy_input real inverse naxes then
      ["FFTW_DESTROY_INPUT"]
    else []) ++
    (if negotiated < platformMax then ["FFTW_UNALIGNED"] else [])

/-- C3: for every built transform, the destroy-input flag is passed iff
`overwrite_input` is true and the transform kind supports it, and a
multi-dimensional inverse real transform never supports it. -/
theorem C3_destroy_input_flag (pe : String) (ow real inverse : Bool)
    (naxes negotiated mx : Nat) (hpe : pe ∈ planner_efforts) :
    ("FFTW_DESTROY_INPUT" ∈ plan_flags pe ow real inverse naxes negotiated mx ↔
      ow = true ∧ supports_destroy_input real inverse naxes = true) ∧
    (∀ n : Nat, 1 < n → supports_destroy_input true true n = false) := by
  constructor
  · have hne : ("FFTW_DESTROY_INPUT" : String) ≠ pe := by
      simp only [planner_efforts, List.mem_cons, List.not_mem_nil,
        or_false] at hpe
      rcases hpe with rfl | rfl | rfl | rfl <;> decide
    rw [← Bool.and_eq_true]
    by_cases hu : negotiated < mx <;>
      cases hd : ow && supports_destroy_input real inverse naxes <;>
        simp [plan_flags, hd, hu, hne]
  · intro n hn
    simp [supports_destroy_input, hn]

/-- Witness for C3: the 2-D inverse real case (`irfft2` with its two
default axes) has `overwrite_input` forced true, yet the destroy-input
flag is absent because two transformed axes make the kind unsupported. -/
theorem C3_destroy_input_flag_witness :
    "FFTW_MEASURE" ∈ planner_efforts ∧
    ("FFTW_DESTROY_INPUT" ∈ plan_flags "FFTW_MEASURE" true true true 2 16 16 ↔
      true = true ∧ supports_destroy_input true true 2 = true) ∧
    supports_destroy_input true true 2 = false :=
  ⟨by decide,
    (C3_destroy_input_flag "FFTW_MEASURE" true true true 2 16 16
      (by decide)).1,
    (C3_destroy_input_flag "FFTW_MEASURE" true true true 2 16 16
      (by decide)).2 2 (by decide)⟩

/-- C5: for every built transform, the unaligned flag is passed iff the
negotiated alignment is strictly below the platform maximum; and the
flag is a pure performance fallback, never an error — the unaligned
build's flag list is exactly the aligned build's with `FFTW_UNALIGNED`
appended. -/
theorem C5_unaligned_flag (pe : String) (ow real inverse : Bool)
    (naxes : Nat) (supported : List Nat) (inAddr outAddr : Nat)
    (inStrides outStrides : List Nat) (hpe : pe ∈ planner_efforts) :
    (("FFTW_UNALIGNED" ∈ plan_flags pe ow real inverse naxes
        (negotiated_alignment supported inAddr inStrides outAddr outStrides)
        (platform_max supported)) ↔
      negotiated_alignment supported inAddr inStrides outAddr outStrides <
        platform_max supported) ∧
    (negotiated_alignment supported inAddr inStrides outAddr outStrides <
        platform_max supported →
      plan_flags pe ow real inverse naxes
          (negotiated_alignment supported inAddr inStrides outAddr outStrides)
          (platform_max supported) =
        plan_flags pe ow real inverse naxes (platform_max supported)
          (platform_max supported) ++ ["FFTW_UNALIGNED"]) := by
  have hne : ("FFTW_UNALIGNED" : String) ≠ pe := by
    simp only [planner_efforts, List.mem_cons, List.not_mem_nil,
      or_false] at hpe
    rcases hpe with rfl | rfl | rfl | rfl <;> decide
  constructor
  · by_cases hu :
        negotiated_alignment supported inAddr inStrides outAddr outStrides <
          platform_max supported <;>
      cases hd : ow && supports_destroy_input real inverse naxes <;>
        simp [plan_flags, hd, hu, hne]
  · intro hu
    cases hd : ow && supports_destroy_input real inverse naxes <;>
      simp [plan_flags, hd, hu, lt_irrefl]

/-- Witness for C5: on the 32/16/8/4/2 platform with a 16-byte-aligned
input and output pair, the negotiated alignment 16 is below the
platform maximum 32, so the built transform carries `FFTW_UNALIGNED`. -/
theorem C5_unaligned_flag_witness :
    (("FFTW_UNALIGNED" ∈ plan_flags "FFTW_MEASURE" false false false 1
        (negotiated_alignment [32, 16, 8, 4, 2] 16 [16] 16 [16])
        (platform_max [32, 16, 8, 4, 2])) ↔
      negotiated_alignment [32, 16, 8, 4, 2] 16 [16] 16 [16] <
        platform_max [32, 16, 8, 4, 2]) ∧
    (negotiated_alignment [32, 16, 8, 4, 2] 16 [16] 16 [16] <
        platform_max [32, 16, 8, 4, 2] →
      plan_flags "FFTW_MEASURE" false false false 1
          (negotiated_alignment [32, 16, 8, 4, 2] 16 [16] 16 [16])
          (platform_max [32, 16, 8, 4, 2]) =
        plan_flags "FFTW_MEASURE" false false false 1
          (platform_max [32, 16, 8, 4, 2])
          (platform_max [32, 16, 8, 4, 2]) ++ ["FFTW_UNALIGNED"]) :=
  C5_unaligned_flag "FFTW_MEASURE" false false false 1 [32, 16, 8, 4, 2]
    16 16 [16] [16] (by decide)

/-! Exact-match storage replacement (`FFTW.update_arrays`,
spec §4.6/§6).  The primitive is not among the sources; the in-tree
test `test_differing_aligned_arrays_update` pins its contract. -/

/-- A replacement array as the exact-match path inspects it. -/
structure StorageDesc where
  shape : List Nat
  dtype : String
  addr : Nat
  strides : List Nat
deriving Repr, DecidableEq

/-- The plan parameters the exact-match replacement checks against. -/
structure PlanDesc where
  inShape : List Nat
  outShape : List Nat
  dtype : String
  alignment : Nat
deriving Repr, DecidableEq

inductive UpdateError where
  | invalidInputShape
  | invalidOutputShape
  | invalidDtype
  | invalidInputAlignment
  | invalidOutputAlignment
deriving Repr, DecidableEq

/-- Modelled from the spec (§6, `replace_storage`) and pinned by the
in-tree test `test_differing_aligned_arrays_update` (the
`FFTW.update_arrays` primitive itself is not among the sources):
replacement demands the plan's exact shapes and dtype, and each new
array must lie on the plan's alignment boundary; the test shows the
alignment check is the boundary test ("Invalid input alignment" /
"Invalid output alignment" exactly when `update_align <
expected_align`), not an equality of alignment classes. -/
def update_arrays (plan : PlanDesc) (newIn newOut : StorageDesc) :
    Except UpdateError Unit :=
  if newIn.shape ≠ plan.inShape then
    Except.error UpdateError.invalidInputShape
  else if newOut.shape ≠ plan.outShape then
    Except.error UpdateError.invalidOutputShape
  else if newIn.dtype ≠ plan.dtype then
    Except.error UpdateError.invalidDtype
  else if newOut.dtype ≠ plan.dtype then
    Except.error UpdateError.invalidDtype
  else if satisfies_alignment plan.alignment newIn.addr newIn.strides = false
      then
    Except.error UpdateError.invalidInputAlignment
  else if satisfies_alignment plan.alignment newOut.addr newOut.strides = false
      then
    Except.error UpdateError.invalidOutputAlignment
  else Except.ok ()

theorem find?_ge_of_sorted (l : List Nat) (pred : Nat → Bool)
    (hsorted : l.Pairwise (fun x y => x ≥ y)) (x : Nat) (hx : x ∈ l)
    (hpx : pred x = true) :
    ∃ y, l.find? pred = some y ∧ x ≤ y := by
  induction l with
  | nil => cases hx
  | cons a as ih =>
    have hs := List.pairwise_cons.mp hsorted
    by_cases ha : pred a
    · refine ⟨a, List.find?_cons_of_pos as ha, ?_⟩
      rcases List.mem_cons.mp hx with rfl | hxas
      · exact le_refl x
      · exact hs.1 x hxas
    · have hxas : x ∈ as := by
        rcases List.mem_cons.mp hx with rfl | hxas
        · exact absurd hpx (by simpa using ha)
        · exact hxas
      obtain ⟨y, hy, hxy⟩ := ih hs.2 hxas
      exact ⟨y, by rw [List.find?_cons_of_neg as ha]; exact hy, hxy⟩

theorem one_le_native_alignment (supported : List Nat) (addr : Nat)
    (strides : List Nat) (hpos : ∀ x ∈ supported, 0 < x) :
    1 ≤ native_alignment supported addr strides := by
  rcases native_alignment_mem_or_one supported addr strides with h | h
  · exact hpos _ h
  · rw [h]

theorem le_native_of_satisfies (supported : List Nat) (p addr : Nat)
    (strides : List Nat) (hpos : ∀ x ∈ supported, 0 < x)
    (hsorted : supported.Pairwise (fun x y => x ≥ y))
    (hp : p ∈ supported ∨ p = 1)
    (hsat : satisfies_alignment p addr strides = true) :
    p ≤ native_alignment supported addr strides := by
  rcases hp with hp | rfl
  · obtain ⟨y, hy, hxy⟩ := find?_ge_of_sorted supported
      (fun al => satisfies_alignment al addr strides) hsorted p hp hsat
    unfold native_alignment
    rw [hy]
    exact hxy
  · exact one_le_native_alignment supported addr strides hpos

theorem satisfies_of_le_native (supported : List Nat) (p addr : Nat)
    (strides : List Nat) (hpos : ∀ x ∈ supported, 0 < x)
    (hchain : ∀ x ∈ supported, ∀ y ∈ supported, x ≤ y → x ∣ y)
    (hp : p ∈ supported ∨ p = 1)
    (hle : p ≤ native_alignment supported addr strides) :
    satisfies_alignment p addr strides = true :=
  satisfies_alignment_of_dvd p (native_alignment supported addr strides)
    addr strides
    (chain_dvd supported hpos hchain p _ hp
      (native_alignment_mem_or_one supported addr strides) hle)
    (native_alignment_satisfies supported addr strides)

/-- Counterexample to C4 as stated: a plan negotiated to alignment
class 16 (from two 16-byte-aligned arrays on the 32/16/8/4/2 platform)
accepts replacement arrays of alignment class 32.  The replacement
arrays' alignment class differs from the plan's, shapes and dtypes
match, yet `update_arrays` succeeds — where the claim demands
failure. -/
theorem C4_update_arrays_counterexample :
    negotiated_alignment [32, 16, 8, 4, 2] 48 [] 80 [] = 16 ∧
    native_alignment [32, 16, 8, 4, 2] 64 [] = 32 ∧
    native_alignment [32, 16, 8, 4, 2] 128 [] = 32 ∧
    (32 : Nat) ≠ 16 ∧
    update_arrays
        ⟨[256, 512], [256, 512], "complex64",
          negotiated_alignment [32, 16, 8, 4, 2] 48 [] 80 []⟩
        ⟨[256, 512], "complex64", 64, []⟩
        ⟨[256, 512], "complex64", 128, []⟩ = Except.ok () :=
  ⟨rfl, rfl, rfl, by decide, rfl⟩

/-- C4 (amended): exact-match replacement fails when a replacement
array's alignment class is strictly below the plan's alignment class
even if shape and dtype match, and succeeds when shape and dtype match
and both replacement arrays' alignment classes are at least the plan's
alignment class. -/
theorem C4_update_arrays_amended (supported : List Nat) (plan : PlanDesc)
    (newIn newOut : StorageDesc)
    (hpos : ∀ x ∈ supported, 0 < x)
    (hchain : ∀ x ∈ supported, ∀ y ∈ supported, x ≤ y → x ∣ y)
    (hsorted : supported.Pairwise (fun x y => x ≥ y))
    (hplan : plan.alignment ∈ supported ∨ plan.alignment = 1)
    (hshape_in : newIn.shape = plan.inShape)
    (hshape_out : newOut.shape = plan.outShape)
    (hdt_in : newIn.dtype = plan.dtype)
    (hdt_out : newOut.dtype = plan.dtype) :
    update_arrays plan newIn newOut = Except.ok () ↔
      (plan.alignment ≤
        native_alignment supported newIn.addr newIn.strides ∧
       plan.alignment ≤
        native_alignment supported newOut.addr newOut.strides) := by
  unfold update_arrays
  rw [if_neg (by simp [hshape_in]), if_neg (by simp [hshape_out]),
    if_neg (by simp [hdt_in]), if_neg (by simp [hdt_out])]
  have key :
      (if satisfies_alignment plan.alignment newIn.addr newIn.strides =
          false then
        Except.error UpdateError.invalidInputAlignment
      else if satisfies_alignment plan.alignment newOut.addr
          newOut.strides = false then
        Except.error UpdateError.invalidOutputAlignment
      else Except.ok ()) = Except.ok () ↔
      (satisfies_alignment plan.alignment newIn.addr newIn.strides = true ∧
       satisfies_alignment plan.alignment newOut.addr newOut.strides =
        true) := by
    cases satisfies_alignment plan.alignment newIn.addr newIn.strides <;>
      cases satisfies_alignment plan.alignment newOut.addr newOut.strides <;>
        simp
  rw [key]
  constructor
  · rintro ⟨h1, h2⟩
    exact ⟨le_native_of_satisfies supported _ _ _ hpos hsorted hplan h1,
      le_native_of_satisfies supported _ _ _ hpos hsorted hplan h2⟩
  · rintro ⟨h1, h2⟩
    exact ⟨satisfies_of_le_native supported _ _ _ hpos hchain hplan h1,
      satisfies_of_le_native supported _ _ _ hpos hchain hplan h2⟩

/-- Witness for the amended C4 at the concrete 32/16/8/4/2 platform:
a plan of alignment 16 with matching shapes and dtypes accepts the
32-byte-aligned replacement pair. -/
theorem C4_update_arrays_amended_witness :
    (update_arrays ⟨[256, 512], [256, 512], "complex64", 16⟩
        ⟨[256, 512], "complex64", 64, []⟩
        ⟨[256, 512], "complex64", 128, []⟩ = Except.ok () ↔
      (16 ≤ native_alignment [32, 16, 8, 4, 2] 64 [] ∧
       16 ≤ native_alignment [32, 16, 8, 4, 2] 128 [])) :=
  C4_update_arrays_amended [32, 16, 8, 4, 2]
    ⟨[256, 512], [256, 512], "complex64", 16⟩
    ⟨[256, 512], "complex64", 64, []⟩
    ⟨[256, 512], "complex64", 128, []⟩
    (by decide) (by decide) (by decide) (by decide) rfl rfl rfl rfl

/-! Array reconciliation (spec §4.4).  The deciding code lives in
`_utils._Xfftn`, which is not among the sources. -/

/-- Which reconciliation condition forced a copy, as named in the
`UnavoidableCopyError` (spec §4.4). -/
inductive CopyCause where
  | dtypeMismatch
  | shapeMismatch
  | contiguityFix
  | alignmentFix
deriving Repr, DecidableEq

inductive ReconcileError where
  | unavoidableCopy (cause : CopyCause)
deriving Repr, DecidableEq

/-- The canonical working shape: the caller's shape with each
transformed axis resized to its canonical length (spec §4.1/§4.4). -/
def canonical_shape (shape : List Nat) (axes lengths : List Nat) :
    List Nat :=
  match axes, lengths with
  | ax :: axs, l :: ls => canonical_shape (shape.set ax l) axs ls
  | _, _ => shape

/-- Modelled from the spec: §4.4 steps 1–4 — the first condition that
requires a copy, if any: complexity/precision mismatch, then shape
mismatch along the transformed axes, then non-contiguity under
`auto_contiguous`, then misalignment under `auto_align_input`. -/
def copy_needed (arr : ArrayDesc) (canon : List Nat)
    (requiredComplex auto_align_input auto_contiguous : Bool)
    (supported : List Nat) : Option CopyCause :=
  if arr.complexDtype != requiredComplex || !arr.supportedPrecision then
    some CopyCause.dtypeMismatch
  else if arr.shape ≠ canon then some CopyCause.shapeMismatch
  else if auto_contiguous && !arr.contiguous then some CopyCause.contiguityFix
  else if auto_align_input &&
      decide (native_alignment supported arr.addr arr.strides <
        platform_max supported) then
    some CopyCause.alignmentFix
  else none

/-- The outcome of reconciling one array role: the working shape the
plan will be built over, whether a copy was made, and whether the
working array aliases the caller's storage. -/
structure Reconciled where
  workingShape : List Nat
  wasCopied : Bool
  aliasesCaller : Bool
deriving Repr, DecidableEq

/-- Modelled from the spec: §4.4 — the reconciliation decision for the
input role.  Steps 1–4 may force a copy; under `avoid_copy` such a copy
becomes an `UnavoidableCopyError` naming its cause.  Step 5: when no
copy was otherwise needed, the transform kind destroys its input and
the caller did not set `overwrite_input`, a defensive copy is made —
unless `avoid_copy` is set, in which case no copy is made and the
caller's own array becomes the working input (its contents will be
destroyed). -/
def reconcile (arr : ArrayDesc) (axes lengths : List Nat)
    (requiredComplex destroysInput : Bool)
    (auto_align_input auto_contiguous avoid_copy overwrite_input : Bool)
    (supported : List Nat) : Except ReconcileError Reconciled :=
  let canon := canonical_shape arr.shape axes lengths
  match copy_needed arr canon requiredComplex auto_align_input
      auto_contiguous supported with
  | some cause =>
    if avoid_copy then Except.error (ReconcileError.unavoidableCopy cause)
    else Except.ok ⟨canon, true, false⟩
  | none =>
    if destroysInput && !overwrite_input && !avoid_copy then
      Except.ok ⟨canon, true, false⟩
    else Except.ok ⟨canon, false, true⟩

theorem canonical_shape_getD_not_mem (shape : List Nat)
    (axes lengths : List Nat) (ax : Nat) (hax : ax ∉ axes) :
    (canonical_shape shape axes lengths).getD ax 0 = shape.getD ax 0 := by
  induction axes generalizing shape lengths with
  | nil => rfl
  | cons a as ih =>
    cases lengths with
    | nil => rfl
    | cons l ls =>
      have hne : a ≠ ax := fun h => hax (h ▸ List.mem_cons_self a as)
      have hax' : ax ∉ as := fun h => hax (List.mem_cons_of_mem a h)
      rw [show canonical_shape shape (a :: as) (l :: ls) =
          canonical_shape (shape.set a l) as ls from rfl]
      rw [ih (shape.set a l) ls hax']
      simp [List.getD, List.getElem?_set_ne hne]

theorem canonical_shape_length (shape : List Nat)
    (axes lengths : List Nat) :
    (canonical_shape shape axes lengths).length = shape.length := by
  induction axes generalizing shape lengths with
  | nil => rfl
  | cons a as ih =>
    cases lengths with
    | nil => rfl
    | cons l ls =>
      rw [show canonical_shape shape (a :: as) (l :: ls) =
          canonical_shape (shape.set a l) as ls from rfl]
      rw [ih (shape.set a l) ls, List.length_set]

/-- On every transformed axis the canonical working shape carries the
requested length (axes de-duplicated and in range). -/
theorem canonical_shape_at_axis (shape : List Nat) (axes lengths : List Nat)
    (hdup : axes.Nodup) (hlen : axes.length = lengths.length)
    (hbound : ∀ ax ∈ axes, ax < shape.length) :
    ∀ i, i < axes.length →
      (canonical_shape shape axes lengths).getD (axes.getD i 0) 0 =
        lengths.getD i 0 := by
  induction axes generalizing shape lengths with
  | nil => intro i hi; cases hi
  | cons a as ih =>
    cases lengths with
    | nil => cases hlen
    | cons l ls =>
      intro i hi
      rw [show canonical_shape shape (a :: as) (l :: ls) =
          canonical_shape (shape.set a l) as ls from rfl]
      cases i with
      | zero =>
        have hnot : a ∉ as := (List.nodup_cons.mp hdup).1
        rw [show (a :: as).getD 0 0 = a from rfl,
          show (l :: ls).getD 0 0 = l from rfl,
          canonical_shape_getD_not_mem (shape.set a l) as ls a hnot]
        have ha : a < shape.length := hbound a (List.mem_cons_self a as)
        simp [List.getD, List.getElem?_set_self, ha]
      | succ j =>
        have hj : j < as.length := Nat.lt_of_succ_lt_succ hi
        rw [show (a :: as).getD (j + 1) 0 = as.getD j 0 from rfl,
          show (l :: ls).getD (j + 1) 0 = ls.getD j 0 from rfl]
        exact ih (shape.set a l) ls (List.nodup_cons.mp hdup).2
          (Nat.succ_injective hlen)
          (fun ax hax => by
            rw [List.length_set]
            exact hbound ax (List.mem_cons_of_mem a hax)) j hj

theorem copy_needed_none_shape (arr : ArrayDesc) (canon : List Nat)
    (requiredComplex auto_align_input auto_contiguous : Bool)
    (supported : List Nat)
    (h : copy_needed arr canon requiredComplex auto_align_input
        auto_contiguous supported = none) :
    arr.shape = canon := by
  unfold copy_needed at h
  by_cases h1 : (arr.complexDtype != requiredComplex ||
      !arr.supportedPrecision) = true
  · rw [if_pos h1] at h; cases h
  · rw [if_neg h1] at h
    by_cases h2 : arr.shape ≠ canon
    · rw [if_pos h2] at h; cases h
    · exact not_not.mp h2

/-- C6: with `avoid_copy` set, any of reconciliation steps 1–4
requiring a copy fails the build with `UnavoidableCopyError` naming the
triggering condition instead of copying; the same request with
`avoid_copy` false succeeds with a copy, and its working shape is the
canonical shape, which carries the requested length on every
transformed axis. -/
theorem C6_avoid_copy_error (arr : ArrayDesc) (axes lengths : List Nat)
    (requiredComplex destroysInput auto_align_input auto_contiguous
      overwrite_input : Bool) (supported : List Nat) (cause : CopyCause)
    (hneed : copy_needed arr (canonical_shape arr.shape axes lengths)
        requiredComplex auto_align_input auto_contiguous supported =
      some cause)
    (hdup : axes.Nodup) (hlen : axes.length = lengths.length)
    (hbound : ∀ ax ∈ axes, ax < arr.shape.length) :
    reconcile arr axes lengths requiredComplex destroysInput
        auto_align_input auto_contiguous true overwrite_input supported =
      Except.error (ReconcileError.unavoidableCopy cause) ∧
    reconcile arr axes lengths requiredComplex destroysInput
        auto_align_input auto_contiguous false overwrite_input supported =
      Except.ok ⟨canonical_shape arr.shape axes lengths, true, false⟩ ∧
    ∀ i, i < axes.length →
      (canonical_shape arr.shape axes lengths).getD (axes.getD i 0) 0 =
        lengths.getD i 0 := by
  refine ⟨?_, ?_,
    canonical_shape_at_axis arr.shape axes lengths hdup hlen hbound⟩
  · simp [reconcile, hneed]
  · simp [reconcile, hneed]

/-- Witness for C6: a 2-element array asked to grow to length 4 along
axis 0; with `avoid_copy` the build fails naming the shape mismatch,
without it the working shape becomes the requested length 4. -/
theorem C6_avoid_copy_error_witness :
    reconcile ⟨[2], true, true, true, 0, []⟩ [0] [4] true false false true
        true false [16] =
      Except.error (ReconcileError.unavoidableCopy CopyCause.shapeMismatch) ∧
    reconcile ⟨[2], true, true, true, 0, []⟩ [0] [4] true false false true
        false false [16] =
      Except.ok ⟨canonical_shape [2] [0] [4], true, false⟩ ∧
    (canonical_shape [2] [0] [4]).getD ([0].getD 0 0) 0 = [4].getD 0 0 :=
  have h := C6_avoid_copy_error ⟨[2], true, true, true, 0, []⟩ [0] [4]
    true false false true false [16] CopyCause.shapeMismatch (by decide)
    (by decide) rfl (by decide)
  ⟨h.1, h.2.1, h.2.2 0 (by decide)⟩

/-- C7: a build request with `avoid_copy` set, `overwrite_input` not
set, and a transform kind that unavoidably destroys its input neither
raises nor copies when steps 1–4 need no copy: the caller's original
array becomes the working input (`wasCopied = false`,
`aliasesCaller = true`), whose contents will be destroyed. -/
theorem C7_avoid_copy_destroy_asymmetry (arr : ArrayDesc)
    (axes lengths : List Nat)
    (requiredComplex auto_align_input auto_contiguous : Bool)
    (supported : List Nat)
    (hnone : copy_needed arr (canonical_shape arr.shape axes lengths)
        requiredComplex auto_align_input auto_contiguous supported = none) :
    reconcile arr axes lengths requiredComplex true auto_align_input
        auto_contiguous true false supported =
      Except.ok ⟨arr.shape, false, true⟩ := by
  have hshape := copy_needed_none_shape arr _ requiredComplex
    auto_align_input auto_contiguous supported hnone
  have hrun : reconcile arr axes lengths requiredComplex true
      auto_align_input auto_contiguous true false supported =
      Except.ok ⟨canonical_shape arr.shape axes lengths, false, true⟩ := by
    simp [reconcile, hnone]
  rw [hrun, ← hshape]

/-- Witness for C7: a conformant, aligned, contiguous array fed to a
destroying kind with `avoid_copy` set and `overwrite_input` unset is
returned as the working input without an error and without a copy. -/
theorem C7_avoid_copy_destroy_asymmetry_witness :
    reconcile ⟨[4], true, true, true, 32, [32]⟩ [0] [4] true true true
        true true false [32, 16] = Except.ok ⟨[4], false, true⟩ :=
  C7_avoid_copy_destroy_asymmetry ⟨[4], true, true, true, 32, [32]⟩
    [0] [4] true true true [32, 16] (by decide)

/-! The tolerant call wrapper (spec §4.6, `_FFTWWrapper.__call__`).
The wrapper class lives in `_utils`, which is not among the sources. -/

/-- Whether a (multi-)index lies inside the region of the given
extents: same rank and strictly below the extent on every axis. -/
def in_region (idx region : List Nat) : Bool :=
  idx.length == region.length &&
    (List.zip idx region).all (fun p => decide (p.1 < p.2))

/-- A plan together with the call wrapper's remembered metadata: the
natural working shape the plan was built for, the sliced-in data
region (the caller extents clipped to the natural shape, fixed at build
time), the plan's output shape and the plan's fixed input storage. -/
structure PlanState where
  natural : List Nat
  dataRegion : List Nat
  outputShape : List Nat
  storage : List Nat → Int

/-- Modelled from the spec: §4.4 step 2 — build-time creation of the
plan's input storage: a fresh array of the natural (canonical) shape,
zero-initialized, with the caller's data copied into the leading
region; the region beyond the caller's extents is padding, zeroed
exactly once here. -/
def build_plan (callerShape : List Nat) (callerData : List Nat → Int)
    (natural outputShape : List Nat) : PlanState :=
  { natural := natural,
    dataRegion := List.zipWith min callerShape natural,
    outputShape := outputShape,
    storage := fun idx =>
      if in_region idx (List.zipWith min callerShape natural) then
        callerData idx
      else 0 }

inductive CallError where
  | shapeTooSmall
deriving Repr, DecidableEq

/-- Modelled from the spec: §4.6 — each invocation with a new array
verifies every dimension of the supplied array is at least the
corresponding dimension of the plan's natural working shape, failing
with `ShapeTooSmallError` otherwise; on success the supplied array's
leading region is sliced down and copied into the plan's fixed input
storage — writing only the sliced-in data region, never the padding —
and the result has the plan's output shape. -/
def adapter_call (p : PlanState) (aShape : List Nat)
    (aData : List Nat → Int) : Except CallError (PlanState × List Nat) :=
  if aShape.length == p.natural.length &&
      (List.zip aShape p.natural).all (fun q => decide (q.2 ≤ q.1)) then
    Except.ok
      ({ p with
          storage := fun idx =>
            if in_region idx p.dataRegion then aData idx
            else p.storage idx },
        p.outputShape)
  else Except.error CallError.shapeTooSmall

/-- C8: invoking the adapter with an array strictly smaller than the
natural working shape along any dimension fails with
`ShapeTooSmallError`; with every dimension at least the natural shape
the call succeeds, copies the supplied array's leading region into the
plan's storage, and returns a result whose shape is the plan's output
shape. -/
theorem C8_adapter_call_shape (p : PlanState) (aShape : List Nat)
    (aData : List Nat → Int) (hrank : aShape.length = p.natural.length) :
    ((∃ q ∈ List.zip aShape p.natural, q.1 < q.2) →
      adapter_call p aShape aData = Except.error CallError.shapeTooSmall) ∧
    ((∀ q ∈ List.zip aShape p.natural, q.2 ≤ q.1) →
      ∃ p', adapter_call p aShape aData = Except.ok (p', p.outputShape) ∧
        ∀ idx, in_region idx p.dataRegion = true →
          p'.storage idx = aData idx) := by
  constructor
  · rintro ⟨q, hq, hlt⟩
    have hcond : ¬((aShape.length == p.natural.length &&
        (List.zip aShape p.natural).all (fun q => decide (q.2 ≤ q.1))) =
          true) := by
      intro hc
      have h2 := ((Bool.and_eq_true _ _).mp hc).2
      have h3 := List.all_eq_true.mp h2 q hq
      exact absurd (of_decide_eq_true h3) (Nat.not_le.mpr hlt)
    unfold adapter_call
    rw [if_neg hcond]
  · intro hall
    have hcond : (aShape.length == p.natural.length &&
        (List.zip aShape p.natural).all (fun q => decide (q.2 ≤ q.1))) =
          true :=
      (Bool.and_eq_true _ _).mpr ⟨beq_iff_eq.mpr hrank,
        List.all_eq_true.mpr fun q hq => decide_eq_true (hall q hq)⟩
    unfold adapter_call
    rw [if_pos hcond]
    refine ⟨_, rfl, ?_⟩
    intro idx hidx
    simp only [hidx, if_pos]

/-- Witness for C8: a plan of natural shape `[4]` rejects a supplied
array of shape `[3]` and accepts one of shape `[6]`, slicing its
leading region in and returning the plan's output shape. -/
theorem C8_adapter_call_shape_witness :
    (adapter_call (build_plan [2] (fun _ => 5) [4] [4]) [3] (fun _ => 7) =
      Except.error CallError.shapeTooSmall) ∧
    (∃ p', adapter_call (build_plan [2] (fun _ => 5) [4] [4]) [6]
        (fun _ => 7) =
      Except.ok (p', (build_plan [2] (fun _ => 5) [4] [4]).outputShape) ∧
      ∀ idx, in_region idx
          (build_plan [2] (fun _ => 5) [4] [4]).dataRegion = true →
        p'.storage idx = 7) :=
  ⟨(C8_adapter_call_shape (build_plan [2] (fun _ => 5) [4] [4]) [3]
      (fun _ => 7) (by decide)).1 ⟨(3, 4), by decide, by decide⟩,
   (C8_adapter_call_shape (build_plan [2] (fun _ => 5) [4] [4]) [6]
      (fun _ => 7) (by decide)).2 (by decide)⟩

/-- C9: the padding region of the plan's input storage — everything
beyond the sliced-in data region — is zero right after the build (its
one and only initialization), and a successful call through the wrapper
never writes it, so it retains whatever value the caller last placed
there by direct access to the storage. -/
theorem C9_padding_untouched (callerShape natural outputShape : List Nat)
    (callerData : List Nat → Int) (p : PlanState) (aShape : List Nat)
    (aData : List Nat → Int) :
    (∀ idx,
      in_region idx (build_plan callerShape callerData natural
          outputShape).dataRegion = false →
      (build_plan callerShape callerData natural outputShape).storage idx =
        0) ∧
    (∀ p' r, adapter_call p aShape aData = Except.ok (p', r) →
      ∀ idx, in_region idx p.dataRegion = false →
        p'.storage idx = p.storage idx) := by
  constructor
  · intro idx hidx
    simp only [build_plan] at hidx ⊢
    simp [hidx]
  · intro p' r hok idx hidx
    unfold adapter_call at hok
    by_cases hcond : (aShape.length == p.natural.length &&
        (List.zip aShape p.natural).all (fun q => decide (q.2 ≤ q.1))) =
          true
    · rw [if_pos hcond] at hok
      rw [Except.ok.injEq, Prod.mk.injEq] at hok
      obtain ⟨h1, _⟩ := hok
      subst h1
      simp [hidx]
    · rw [if_neg hcond] at hok
      cases hok

/-- Witness for C9: building with caller extent 2 and natural shape 4,
index 3 lies in the padding: it is zero after the build, and a
successful call with a shape-4 array leaves it unchanged. -/
theorem C9_padding_untouched_witness :
    in_region [3] (build_plan [2] (fun _ => 5) [4] [4]).dataRegion =
      false ∧
    (build_plan [2] (fun _ => 5) [4] [4]).storage [3] = 0 ∧
    ∃ p' r, adapter_call (build_plan [2] (fun _ => 5) [4] [4]) [4]
        (fun _ => 7) = Except.ok (p', r) ∧
      p'.storage [3] = (build_plan [2] (fun _ => 5) [4] [4]).storage [3] :=
  have h := C9_padding_untouched [2] [4] [4] (fun _ => 5)
    (build_plan [2] (fun _ => 5) [4] [4]) [4] (fun _ => 7)
  ⟨by decide, h.1 [3] (by decide), _, _, rfl, h.2 _ _ rfl [3] (by decide)⟩

end PyFFTW
